import Mathlib

/-!
Verification of the maintenance-strategy simulation core of an offshore
wind-turbine revenue tool (`src/strategy_utils.py`).

The embedding models:
* one input record of the prepared wind data frame (`Rec`): timestamp,
  wind speed, electricity price and precomputed revenue per step;
* the mutable simulation state carried through the row loop of
  `MaintenanceStrategy.add_downtimes` (`SimState`): `current_pressure`,
  `end_visit_ts`, `pending_visit` and the strategy object's `n_visits`;
* the loop body itself (`stepSim`), the whole walk (`add_downtimes`) and
  `calculate_revenue`.

Timestamps are integers in an abstract time unit (the code only orders
them, tests them for equality and adds fixed durations).  Physical and
monetary quantities are rationals.  The data frame column `pressure` is
initialised to NaN and a row that the wind-speed gate skips with
`continue` never receives a value, so a recorded pressure is `Option` so
that the NaN case is a faithful `none`.  Module-level constants of the
source (`DECLINE_RATE`, `INIT_PRES`, `MIN_PRES`, `MAX_WIND_SPEED`,
`MAINTENANCE_DURATION`, `VESSEL_COST`) are gathered in a `Config` record;
`defaultConfig` holds the source's concrete values.
-/

/-- One row of the prepared wind data frame: the index timestamp and the
columns read by the core (`Speed (m/s)`, `Price (Eur/MWh)`,
`Revenue (Eur)`). -/
structure Rec where
  ts : ℤ
  speed : ℚ
  price : ℚ
  revenue : ℚ
deriving Repr, DecidableEq

/-- One row of the annotated output frame: the input row plus the
`pressure` column (`none` models the initial NaN that a `continue`-skipped
row keeps) and the `visit` column (0/1 as `Bool`). -/
structure OutRec where
  row : Rec
  pressure : Option ℚ
  visit : Bool
deriving Repr, DecidableEq

/-- The mutable state of `add_downtimes`: the local variables
`current_pressure`, `end_visit_ts`, `pending_visit`, and the strategy
object's accumulated `self.n_visits`. -/
structure SimState where
  current_pressure : ℚ
  end_visit_ts : ℤ
  pending_visit : Bool
  n_visits : ℕ
deriving Repr, DecidableEq

/-- The configuration constants of `strategy_utils.py`, made explicit:
`DECLINE_RATE`, `INIT_PRES`, `MIN_PRES`, `MAX_WIND_SPEED`, the visit
duration (`MAINTENANCE_DURATION`, converted to time units), `VESSEL_COST`,
and `one_day`, the number of time units in one calendar day (used by the
sentinel `wind_df.index[-1] + timedelta(days=1)`). -/
structure Config where
  decline_rate : ℚ
  init_pressure : ℚ
  min_pressure : ℚ
  max_wind_speed : ℚ
  visit_duration : ℤ
  vessel_cost : ℚ
  one_day : ℤ
deriving Repr, DecidableEq

/-- The source's concrete constants, with one time unit = one 30-minute
interval (`DECLINE_RATE` is per 30-minute interval), so one day is 48
units and `MAINTENANCE_DURATION = 1` day is 48 units. -/
def defaultConfig : Config :=
  { decline_rate := 1 / 10000
    init_pressure := 2
    min_pressure := 1 / 2
    max_wind_speed := 5
    visit_duration := 48
    vessel_cost := 50000
    one_day := 48 }

/-- A maintenance policy as the simulator sees it: the `fix_pressure`
predicate of `(current_pressure, current_time, current_wind_speed,
current_price)`. -/
def Policy : Type := ℚ → ℤ → ℚ → ℚ → Bool

/-- `wind_df[wind_df.index >= target].index[0]` as an `Option`: the first
timestamp of the series, in series order, that is `≥ target`. -/
def firstTsGE (allTs : List ℤ) (target : ℤ) : Option ℤ :=
  allTs.find? (fun t => decide (target ≤ t))

/-- Lines 86-90 of `strategy_utils.py`: the end timestamp of a visit
triggered at `ind`.  If `ind + maintenance_duration < wind_df.index[-1]`
it is the first series timestamp `≥ ind + maintenance_duration`
(nonempty in that branch because the last timestamp qualifies; `getD`
supplies the unreachable default), otherwise the last series timestamp. -/
def computeEndVisit (allTs : List ℤ) (lastTs : ℤ) (ind : ℤ) (duration : ℤ) : ℤ :=
  if ind + duration < lastTs then (firstTsGE allTs (ind + duration)).getD lastTs
  else lastTs

/-- The body of the `for ind, row in wind_df.iterrows()` loop of
`add_downtimes` (lines 64-103), for one row `r`: decrement the pressure,
evaluate the policy, possibly start a visit (dropped entirely by
`continue` when `row["Speed (m/s)"] > max_wind_speed`, which also skips
the pressure write for this row), flag ongoing visits, reset pressure at
the visit's end timestamp, and record the pressure into the row. -/
def stepSim (cfg : Config) (pol : Policy) (lastTs : ℤ) (allTs : List ℤ)
    (st : SimState) (r : Rec) : SimState × OutRec :=
  let p := st.current_pressure - cfg.decline_rate
  let send := pol p r.ts r.speed r.price
  if st.pending_visit = false ∧ send = true ∧ cfg.max_wind_speed < r.speed then
    ({ st with current_pressure := p }, { row := r, pressure := none, visit := false })
  else
    let trig : Bool := !st.pending_visit && send
    let st1 : SimState :=
      if trig then
        { current_pressure := p
          end_visit_ts := computeEndVisit allTs lastTs r.ts cfg.visit_duration
          pending_visit := true
          n_visits := st.n_visits + 1 }
      else { st with current_pressure := p }
    let vflag : Bool := trig || st1.pending_visit
    if r.ts = st1.end_visit_ts then
      ({ st1 with current_pressure := cfg.init_pressure, pending_visit := false },
        { row := r, pressure := some cfg.init_pressure, visit := vflag })
    else
      (st1, { row := r, pressure := some st1.current_pressure, visit := vflag })

/-- The loop of `add_downtimes`, threading `SimState` through the rows and
collecting the annotated rows in order. -/
def runSim (cfg : Config) (pol : Policy) (lastTs : ℤ) (allTs : List ℤ) :
    SimState → List Rec → SimState × List OutRec
  | st, [] => (st, [])
  | st, r :: rs =>
    let so := stepSim cfg pol lastTs allTs st r
    let rest := runSim cfg pol lastTs allTs so.1 rs
    (rest.1, so.2 :: rest.2)

/-- `MaintenanceStrategy.add_downtimes` (lines 47-105): initialise
`current_pressure = INIT_PRES`, the sentinel
`end_visit_ts = wind_df.index[-1] + timedelta(days=1)`,
`pending_visit = False`, and walk the rows.  `n0` is the value of
`self.n_visits` on entry (0 for a freshly constructed strategy). -/
def add_downtimes (cfg : Config) (pol : Policy) (n0 : ℕ) (recs : List Rec) :
    SimState × List OutRec :=
  let allTs := recs.map (fun r => r.ts)
  let lastTs := allTs.getLast?.getD 0
  runSim cfg pol lastTs allTs
    { current_pressure := cfg.init_pressure
      end_visit_ts := lastTs + cfg.one_day
      pending_visit := false
      n_visits := n0 } recs

/-- The row filter of `calculate_revenue`:
`(wind_df["pressure"] >= MIN_PRES) & (wind_df["visit"] == 0)`.  A NaN
pressure compares false, as in pandas. -/
def revenueKeep (min_pressure : ℚ) (o : OutRec) : Bool :=
  (match o.pressure with
    | some p => decide (min_pressure ≤ p)
    | none => false) && !o.visit

/-- `MaintenanceStrategy.calculate_revenue` (lines 108-122): the sum of
`Revenue (Eur)` over the rows kept by `revenueKeep`, minus
`self.n_visits * VESSEL_COST`. -/
def calculate_revenue (cfg : Config) (n_visits : ℕ) (out : List OutRec) : ℚ :=
  ((out.filter (revenueKeep cfg.min_pressure)).map (fun o => o.row.revenue)).sum
    - (n_visits : ℚ) * cfg.vessel_cost

/-- A policy that never triggers a visit. -/
def polNever : Policy := fun _ _ _ _ => false

/-- A policy that triggers at every step. -/
def polAlways : Policy := fun _ _ _ _ => true

/-- The 3-record synthetic series of the revenue-accounting example:
hourly timestamps (2 time units apart at 30-minute resolution), calm wind,
power 1/2/3 MW at prices 10/20/30 Eur/MWh, so revenue steps 10/40/90. -/
def c1Series : List Rec :=
  [{ ts := 0, speed := 3, price := 10, revenue := 10 },
   { ts := 2, speed := 3, price := 20, revenue := 40 },
   { ts := 4, speed := 3, price := 30, revenue := 90 }]

/-- The revenue formula as the specification words it: the sum of
`revenue_step` over exactly those records whose pressure is `≥
min_pressure` and whose visit flag is false, minus `visit_count *
vessel_cost` (a record with no recorded pressure has no pressure `≥
min_pressure`). -/
def revenueSpec (min_pressure vessel_cost : ℚ) (visit_count : ℕ)
    (out : List OutRec) : ℚ :=
  ((out.filter (fun o =>
      (o.pressure.any (fun p => decide (min_pressure ≤ p))) && !o.visit)).map
    (fun o => o.row.revenue)).sum - (visit_count : ℚ) * vessel_cost


/-- The strategy object built by `ScheduledMaintenance.__init__(day, month)`
(lines 176-187): `n_visits` initialised by the base class, a display name,
and the configured month and day. -/
structure ScheduledMaintenance where
  n_visits : ℕ
  name : String
  month : ℤ
  day : ℤ
deriving Repr, DecidableEq

/-- `ScheduledMaintenance.__init__`: stores the parameters unchecked. -/
def ScheduledMaintenance.make (day month : ℤ) : ScheduledMaintenance :=
  { n_visits := 0, name := "Scheduled Maintenance", month := month, day := day }

/-- The calendar attributes of a `datetime` that
`ScheduledMaintenance.fix_pressure` reads. -/
structure CalTime where
  month : ℤ
  day : ℤ
deriving Repr, DecidableEq

/-- `ScheduledMaintenance.fix_pressure` (lines 189-193): true when the
current timestamp's month and day match the configured values. -/
def ScheduledMaintenance.fix_pressure (s : ScheduledMaintenance)
    (current_pressure : ℚ) (current_time : CalTime)
    (current_wind_speed current_price : ℚ) : Bool :=
  decide (current_time.month = s.month ∧ current_time.day = s.day)

/-- The strategy object built by
`ConditionMonitoring.__init__(pressure_threshold)` (lines 201-210). -/
structure ConditionMonitoring where
  n_visits : ℕ
  name : String
  pressure_threshold : ℚ
deriving Repr, DecidableEq

/-- `ConditionMonitoring.__init__`: stores the threshold unchecked. -/
def ConditionMonitoring.make (pressure_threshold : ℚ) : ConditionMonitoring :=
  { n_visits := 0, name := "Condition Monitoring",
    pressure_threshold := pressure_threshold }

/-- `ConditionMonitoring.fix_pressure` (lines 212-216): true when the
current pressure is at or below the threshold. -/
def ConditionMonitoring.fix_pressure (c : ConditionMonitoring)
    (current_pressure : ℚ) (current_time : CalTime)
    (current_wind_speed current_price : ℚ) : Bool :=
  decide (current_pressure ≤ c.pressure_threshold)

/-- Modelled from the spec: a calendar day/month pair is in range (the
validity the spec requires constructors to enforce). -/
def specValidCalendar (day month : ℤ) : Prop :=
  1 ≤ day ∧ day ≤ 31 ∧ 1 ≤ month ∧ month ≤ 12

/-- Modelled from the spec: a pressure threshold is valid when positive. -/
def specValidThreshold (threshold : ℚ) : Prop := 0 < threshold

unseal Rat.sub Rat.add Rat.mul Rat.inv

/-- C1: the Revenue Calculator returns the sum of `revenue_step` over
exactly those records whose pressure is `≥ min_pressure` and whose visit
flag is false, minus `visit_count * vessel_cost`; and on the synthetic
3-record series with power 1/2/3 MW and prices 10/20/30 Eur/MWh under a
policy that never triggers (decline rate small enough that pressure stays
above `min_pressure`), it returns 140 with `visit_count = 0`. -/
theorem revenue_formula_and_example :
    (∀ (cfg : Config) (n : ℕ) (out : List OutRec),
      calculate_revenue cfg n out = revenueSpec cfg.min_pressure cfg.vessel_cost n out) ∧
    (add_downtimes defaultConfig polNever 0 c1Series).1.n_visits = 0 ∧
    calculate_revenue defaultConfig
      (add_downtimes defaultConfig polNever 0 c1Series).1.n_visits
      (add_downtimes defaultConfig polNever 0 c1Series).2 = 140 := by
  refine ⟨fun cfg n out => ?_, by decide, by decide⟩
  have hf : revenueKeep cfg.min_pressure = fun o : OutRec =>
      ((o.pressure.any fun p => decide (cfg.min_pressure ≤ p)) && !o.visit) := by
    funext o
    cases hp : o.pressure <;> simp [revenueKeep, hp]
  simp [calculate_revenue, revenueSpec, hf]

/-- C2 as stated is false: at a record where the policy triggered but the
wind-speed gate dropped the trigger, `continue` skips the pressure write,
so that record's `pressure` cell keeps the initial NaN (here: a 1-record
series with wind speed 10 > `MAX_WIND_SPEED` = 5 and an always-true
policy ends the run with pressure still unrecorded). -/
theorem gate_skips_pressure_write_cex :
    ((add_downtimes defaultConfig polAlways 0
        [{ ts := 0, speed := 10, price := 0, revenue := 0 }]).2.map
      (fun o => o.pressure)) = [none] := by decide

/-- C2 amended: at every step, the record's recorded pressure is exactly
the value of `current_pressure` at the end of the step (after the
decrement and any reset) — except that a record where the trigger fired
and was dropped by the wind-speed gate is left with no recorded pressure
(the column's initial NaN). -/
theorem pressure_recorded_unless_gated (cfg : Config) (pol : Policy)
    (lastTs : ℤ) (allTs : List ℤ) (st : SimState) (r : Rec) :
    ((stepSim cfg pol lastTs allTs st r).2.pressure = none ↔
      (st.pending_visit = false ∧
        pol (st.current_pressure - cfg.decline_rate) r.ts r.speed r.price = true ∧
        cfg.max_wind_speed < r.speed)) ∧
    ∀ q, (stepSim cfg pol lastTs allTs st r).2.pressure = some q →
      q = (stepSim cfg pol lastTs allTs st r).1.current_pressure := by
  unfold stepSim
  cases hpv : st.pending_visit <;>
    cases hsend : pol (st.current_pressure - cfg.decline_rate) r.ts r.speed r.price <;>
    by_cases hw : cfg.max_wind_speed < r.speed <;>
    simp [hpv, hsend, hw] <;>
    split <;> simp

theorem pressure_recorded_unless_gated_witness :
    (2 - 1/10000 : ℚ) =
      (stepSim defaultConfig polNever 0 [0]
        { current_pressure := 2, end_visit_ts := 48, pending_visit := false, n_visits := 0 }
        { ts := 0, speed := 3, price := 10, revenue := 10 }).1.current_pressure :=
  (pressure_recorded_unless_gated defaultConfig polNever 0 [0]
    { current_pressure := 2, end_visit_ts := 48, pending_visit := false, n_visits := 0 }
    { ts := 0, speed := 3, price := 10, revenue := 10 }).2 (2 - 1/10000) (by decide)

/-- C3: at a step where no visit is pending, the policy returns true, and
the wind speed exceeds `max_wind_speed`, the step leaves the whole state
unchanged except for the pressure decrement: no visit starts, `n_visits`
is not incremented, `pending_visit` stays false, no end timestamp is
stored (no deferral), and the record's visit flag stays false — a visit
can only start from a later step where the policy returns true again. -/
theorem wind_gate_drops_trigger (cfg : Config) (pol : Policy) (lastTs : ℤ)
    (allTs : List ℤ) (st : SimState) (r : Rec)
    (hp : st.pending_visit = false)
    (hs : pol (st.current_pressure - cfg.decline_rate) r.ts r.speed r.price = true)
    (hw : cfg.max_wind_speed < r.speed) :
    stepSim cfg pol lastTs allTs st r =
      ({ st with current_pressure := st.current_pressure - cfg.decline_rate },
        { row := r, pressure := none, visit := false }) := by
  simp [stepSim, hp, hs, hw]

theorem wind_gate_drops_trigger_witness :
    stepSim defaultConfig polAlways 0 [0]
        { current_pressure := 2, end_visit_ts := 48, pending_visit := false, n_visits := 0 }
        { ts := 0, speed := 10, price := 0, revenue := 0 } =
      ({ current_pressure := 2 - 1/10000, end_visit_ts := 48, pending_visit := false,
          n_visits := 0 },
        { row := { ts := 0, speed := 10, price := 0, revenue := 0 }, pressure := none,
          visit := false }) :=
  wind_gate_drops_trigger defaultConfig polAlways 0 [0]
    { current_pressure := 2, end_visit_ts := 48, pending_visit := false, n_visits := 0 }
    { ts := 0, speed := 10, price := 0, revenue := 0 } rfl rfl (by decide)

lemma stepSim_pending (cfg : Config) (pol : Policy) (lastTs : ℤ) (allTs : List ℤ)
    (st : SimState) (r : Rec) (hp : st.pending_visit = true) :
    stepSim cfg pol lastTs allTs st r =
      if r.ts = st.end_visit_ts then
        ({ st with current_pressure := cfg.init_pressure, pending_visit := false },
          { row := r, pressure := some cfg.init_pressure, visit := true })
      else
        ({ st with current_pressure := st.current_pressure - cfg.decline_rate },
          { row := r, pressure := some (st.current_pressure - cfg.decline_rate), visit := true }) := by
  unfold stepSim
  simp [hp]

lemma stepSim_quiet (cfg : Config) (pol : Policy) (lastTs : ℤ) (allTs : List ℤ)
    (st : SimState) (r : Rec) (hp : st.pending_visit = false)
    (hs : pol (st.current_pressure - cfg.decline_rate) r.ts r.speed r.price = false)
    (hne : r.ts ≠ st.end_visit_ts) :
    stepSim cfg pol lastTs allTs st r =
      ({ st with current_pressure := st.current_pressure - cfg.decline_rate },
        { row := r, pressure := some (st.current_pressure - cfg.decline_rate), visit := false }) := by
  unfold stepSim
  simp [hp, hs, hne]

lemma stepSim_trigger (cfg : Config) (pol : Policy) (lastTs : ℤ) (allTs : List ℤ)
    (st : SimState) (r : Rec) (hp : st.pending_visit = false)
    (hs : pol (st.current_pressure - cfg.decline_rate) r.ts r.speed r.price = true)
    (hw : ¬ cfg.max_wind_speed < r.speed) :
    stepSim cfg pol lastTs allTs st r =
      if r.ts = computeEndVisit allTs lastTs r.ts cfg.visit_duration then
        ({ current_pressure := cfg.init_pressure
           end_visit_ts := computeEndVisit allTs lastTs r.ts cfg.visit_duration
           pending_visit := false
           n_visits := st.n_visits + 1 },
          { row := r, pressure := some cfg.init_pressure, visit := true })
      else
        ({ current_pressure := st.current_pressure - cfg.decline_rate
           end_visit_ts := computeEndVisit allTs lastTs r.ts cfg.visit_duration
           pending_visit := true
           n_visits := st.n_visits + 1 },
          { row := r, pressure := some (st.current_pressure - cfg.decline_rate), visit := true }) := by
  unfold stepSim
  simp [hp, hs, hw]

lemma stepSim_row (cfg : Config) (pol : Policy) (lastTs : ℤ) (allTs : List ℤ)
    (st : SimState) (r : Rec) :
    (stepSim cfg pol lastTs allTs st r).2.row = r := by
  unfold stepSim
  cases hpv : st.pending_visit <;>
    cases hsend : pol (st.current_pressure - cfg.decline_rate) r.ts r.speed r.price <;>
    by_cases hw : cfg.max_wind_speed < r.speed <;>
    simp [hpv, hsend, hw] <;>
    split <;> simp

lemma runSim_row_mem (cfg : Config) (pol : Policy) (lastTs : ℤ) (allTs : List ℤ) :
    ∀ (recs : List Rec) (st : SimState),
      ∀ o ∈ (runSim cfg pol lastTs allTs st recs).2, o.row ∈ recs := by
  intro recs
  induction recs with
  | nil => intro st o ho; simp [runSim] at ho
  | cons r rs ih =>
    intro st o ho
    simp only [runSim, List.mem_cons] at ho
    rcases ho with rfl | ho
    · simp [stepSim_row]
    · exact List.mem_cons_of_mem r (ih _ o ho)

lemma le_getLast_of_sorted (l : List ℤ) (m : ℤ)
    (hs : List.Pairwise (fun a b : ℤ => a < b) l) (hl : l.getLast? = some m) :
    ∀ x ∈ l, x ≤ m := by
  obtain ⟨ys, rfl⟩ := List.getLast?_eq_some_iff.1 hl
  intro x hx
  rcases List.mem_append.1 hx with h | h
  · exact le_of_lt ((List.pairwise_append.1 hs).2.2 x h m (by simp))
  · simp at h
    omega

lemma flagged_while_pending (cfg : Config) (pol : Policy) (lastTs : ℤ) (allTs : List ℤ) :
    ∀ (recs : List Rec) (st : SimState),
      st.pending_visit = true →
      List.Pairwise (fun a b : Rec => a.ts < b.ts) recs →
      ∀ o ∈ (runSim cfg pol lastTs allTs st recs).2,
        o.row.ts ≤ st.end_visit_ts → o.visit = true := by
  intro recs
  induction recs with
  | nil => intro st _ _ o ho; simp [runSim] at ho
  | cons r rs ih =>
    intro st hp hsort o ho hle
    simp only [runSim, List.mem_cons] at ho
    rw [stepSim_pending cfg pol lastTs allTs st r hp] at ho
    by_cases he : r.ts = st.end_visit_ts
    · rw [if_pos he] at ho
      rcases ho with rfl | ho
      · rfl
      · exfalso
        have hrow := runSim_row_mem cfg pol lastTs allTs rs _ o ho
        have hlt := (List.pairwise_cons.1 hsort).1 o.row hrow
        omega
    · rw [if_neg he] at ho
      rcases ho with rfl | ho
      · rfl
      · exact ih { st with current_pressure := st.current_pressure - cfg.decline_rate }
          hp (List.pairwise_cons.1 hsort).2 o ho hle

/-- C4: for a sorted series whose last timestamp is `lastTs`, the visit
end timestamp computed for a trigger at `t` is the first series timestamp
`≥ t + visit_duration` when one exists and the last series timestamp
otherwise, and it never lies after the last series timestamp. -/
theorem visit_end_first_ge_or_last (allTs : List ℤ) (lastTs t dur : ℤ)
    (hs : List.Pairwise (fun a b : ℤ => a < b) allTs)
    (hl : allTs.getLast? = some lastTs) :
    (∀ e, firstTsGE allTs (t + dur) = some e → computeEndVisit allTs lastTs t dur = e) ∧
    (firstTsGE allTs (t + dur) = none → computeEndVisit allTs lastTs t dur = lastTs) ∧
    computeEndVisit allTs lastTs t dur ≤ lastTs := by
  have hmem : lastTs ∈ allTs := by
    obtain ⟨ys, rfl⟩ := List.getLast?_eq_some_iff.1 hl
    simp
  have hle := le_getLast_of_sorted allTs lastTs hs hl
  unfold computeEndVisit
  by_cases hcase : t + dur < lastTs
  · have hsome : (firstTsGE allTs (t + dur)).isSome := by
      unfold firstTsGE
      exact List.find?_isSome.2 ⟨lastTs, hmem, by simp; omega⟩
    obtain ⟨e, he⟩ := Option.isSome_iff_exists.1 hsome
    refine ⟨?_, ?_, ?_⟩
    · intro e2 he2
      rw [if_pos hcase, he2]
      rfl
    · intro hnone
      rw [hnone] at he
      cases he
    · rw [if_pos hcase, he]
      exact hle e (List.mem_of_find?_eq_some he)
  · refine ⟨?_, ?_, ?_⟩
    · intro e he2
      have hm := List.mem_of_find?_eq_some he2
      have hp : t + dur ≤ e := by
        have := List.find?_some he2
        simpa using this
      have := hle e hm
      rw [if_neg hcase]
      omega
    · intro _
      rw [if_neg hcase]
    · rw [if_neg hcase]

theorem visit_end_first_ge_or_last_witness :
    computeEndVisit [0, 2, 4] 4 0 3 = 4 :=
  (visit_end_first_ge_or_last [0, 2, 4] 4 0 3 (by decide) (by decide)).1 4 (by decide)

/-- C5: at the step of an active visit whose record timestamp equals the
visit's end timestamp, the simulator resets `current_pressure` to
`init_pressure` and clears `pending_visit`, and that same record — whose
visit flag is true — gets the post-reset `init_pressure` recorded as its
pressure, not the pre-reset decayed value. -/
theorem reset_at_visit_end (cfg : Config) (pol : Policy) (lastTs : ℤ) (allTs : List ℤ)
    (st : SimState) (r : Rec) (hp : st.pending_visit = true)
    (he : r.ts = st.end_visit_ts) :
    stepSim cfg pol lastTs allTs st r =
      ({ st with current_pressure := cfg.init_pressure, pending_visit := false },
        { row := r, pressure := some cfg.init_pressure, visit := true }) := by
  rw [stepSim_pending cfg pol lastTs allTs st r hp, if_pos he]

theorem reset_at_visit_end_witness :
    stepSim defaultConfig polNever 4 [0, 2, 4]
        { current_pressure := 1, end_visit_ts := 4, pending_visit := true, n_visits := 1 }
        { ts := 4, speed := 3, price := 30, revenue := 90 } =
      ({ current_pressure := 2, end_visit_ts := 4, pending_visit := false, n_visits := 1 },
        { row := { ts := 4, speed := 3, price := 30, revenue := 90 }, pressure := some 2,
          visit := true }) :=
  reset_at_visit_end defaultConfig polNever 4 [0, 2, 4]
    { current_pressure := 1, end_visit_ts := 4, pending_visit := true, n_visits := 1 }
    { ts := 4, speed := 3, price := 30, revenue := 90 } rfl rfl

/-- C7: while a visit is pending, a step never starts a new visit:
`n_visits` is not incremented, no new end timestamp is computed,
`pending_visit` stays set exactly until the record whose timestamp equals
the active visit's end timestamp, and the record is flagged as visited. -/
theorem no_new_visit_while_pending (cfg : Config) (pol : Policy) (lastTs : ℤ)
    (allTs : List ℤ) (st : SimState) (r : Rec) (hp : st.pending_visit = true) :
    (stepSim cfg pol lastTs allTs st r).1.n_visits = st.n_visits ∧
    (stepSim cfg pol lastTs allTs st r).1.end_visit_ts = st.end_visit_ts ∧
    ((stepSim cfg pol lastTs allTs st r).1.pending_visit = false ↔ r.ts = st.end_visit_ts) ∧
    (stepSim cfg pol lastTs allTs st r).2.visit = true := by
  rw [stepSim_pending cfg pol lastTs allTs st r hp]
  by_cases he : r.ts = st.end_visit_ts <;> simp [he, hp]

theorem no_new_visit_while_pending_witness :
    (stepSim defaultConfig polAlways 4 [0, 2, 4]
        { current_pressure := 1, end_visit_ts := 4, pending_visit := true, n_visits := 1 }
        { ts := 2, speed := 3, price := 20, revenue := 40 }).1.n_visits = 1 ∧
    (stepSim defaultConfig polAlways 4 [0, 2, 4]
        { current_pressure := 1, end_visit_ts := 4, pending_visit := true, n_visits := 1 }
        { ts := 2, speed := 3, price := 20, revenue := 40 }).1.end_visit_ts = 4 ∧
    ((stepSim defaultConfig polAlways 4 [0, 2, 4]
        { current_pressure := 1, end_visit_ts := 4, pending_visit := true, n_visits := 1 }
        { ts := 2, speed := 3, price := 20, revenue := 40 }).1.pending_visit = false ↔
      (2 : ℤ) = 4) ∧
    (stepSim defaultConfig polAlways 4 [0, 2, 4]
        { current_pressure := 1, end_visit_ts := 4, pending_visit := true, n_visits := 1 }
        { ts := 2, speed := 3, price := 20, revenue := 40 }).2.visit = true :=
  no_new_visit_while_pending defaultConfig polAlways 4 [0, 2, 4]
    { current_pressure := 1, end_visit_ts := 4, pending_visit := true, n_visits := 1 }
    { ts := 2, speed := 3, price := 20, revenue := 40 } rfl

/-- C6: when a visit is triggered at record `r` (no pending visit, policy
true, wind within the gate), the triggering record's visit flag is true
and every subsequent record whose timestamp is at most the computed end
timestamp has its visit flag true — the closed interval from trigger to
end is flagged with no gaps. -/
theorem visit_interval_fully_flagged (cfg : Config) (pol : Policy) (lastTs : ℤ)
    (allTs : List ℤ) (st : SimState) (r : Rec) (rs : List Rec)
    (hsort : List.Pairwise (fun a b : Rec => a.ts < b.ts) (r :: rs))
    (hp : st.pending_visit = false)
    (hs : pol (st.current_pressure - cfg.decline_rate) r.ts r.speed r.price = true)
    (hw : ¬ cfg.max_wind_speed < r.speed) :
    (stepSim cfg pol lastTs allTs st r).2.visit = true ∧
    ∀ o ∈ (runSim cfg pol lastTs allTs (stepSim cfg pol lastTs allTs st r).1 rs).2,
      o.row.ts ≤ computeEndVisit allTs lastTs r.ts cfg.visit_duration → o.visit = true := by
  rw [stepSim_trigger cfg pol lastTs allTs st r hp hs hw]
  by_cases he : r.ts = computeEndVisit allTs lastTs r.ts cfg.visit_duration
  · rw [if_pos he]
    refine ⟨rfl, ?_⟩
    intro o ho hle
    exfalso
    have hrow := runSim_row_mem cfg pol lastTs allTs rs _ o ho
    have hlt := (List.pairwise_cons.1 hsort).1 o.row hrow
    omega
  · rw [if_neg he]
    refine ⟨rfl, ?_⟩
    intro o ho hle
    exact flagged_while_pending cfg pol lastTs allTs rs _ rfl
      (List.pairwise_cons.1 hsort).2 o ho hle

theorem visit_interval_fully_flagged_witness :
    ((stepSim defaultConfig polAlways 4 [0, 2, 4]
        { current_pressure := 2, end_visit_ts := 52, pending_visit := false, n_visits := 0 }
        { ts := 0, speed := 3, price := 10, revenue := 10 }).2.visit = true ∧
      ∀ o ∈ (runSim defaultConfig polAlways 4 [0, 2, 4]
          (stepSim defaultConfig polAlways 4 [0, 2, 4]
            { current_pressure := 2, end_visit_ts := 52, pending_visit := false, n_visits := 0 }
            { ts := 0, speed := 3, price := 10, revenue := 10 }).1
          [{ ts := 2, speed := 3, price := 20, revenue := 40 },
            { ts := 4, speed := 3, price := 30, revenue := 90 }]).2,
        o.row.ts ≤ computeEndVisit [0, 2, 4] 4 0 defaultConfig.visit_duration →
          o.visit = true) :=
  visit_interval_fully_flagged defaultConfig polAlways 4 [0, 2, 4]
    { current_pressure := 2, end_visit_ts := 52, pending_visit := false, n_visits := 0 }
    { ts := 0, speed := 3, price := 10, revenue := 10 }
    [{ ts := 2, speed := 3, price := 20, revenue := 40 },
      { ts := 4, speed := 3, price := 30, revenue := 90 }]
    (by decide) rfl rfl (by decide)

lemma runSim_quiet (cfg : Config) (pol : Policy) (lastTs : ℤ) (allTs : List ℤ)
    (hpol : ∀ p t w pr, pol p t w pr = false) :
    ∀ (recs : List Rec) (st : SimState),
      st.pending_visit = false →
      (∀ r ∈ recs, r.ts ≠ st.end_visit_ts) →
      (runSim cfg pol lastTs allTs st recs).1 =
        { st with current_pressure :=
            st.current_pressure - (recs.length : ℚ) * cfg.decline_rate } ∧
      (runSim cfg pol lastTs allTs st recs).2.length = recs.length ∧
      (∀ o ∈ (runSim cfg pol lastTs allTs st recs).2, o.visit = false) ∧
      ∀ (k : ℕ) (o : OutRec), (runSim cfg pol lastTs allTs st recs).2.get? k = some o →
        o.pressure = some (st.current_pressure - ((k : ℚ) + 1) * cfg.decline_rate) := by
  intro recs
  induction recs with
  | nil =>
    intro st hp hne2
    refine ⟨?_, rfl, ?_, ?_⟩
    · cases st
      simp [runSim]
    · intro o ho
      simp [runSim] at ho
    · intro k o h
      simp [runSim] at h
  | cons r rs ih =>
    intro st hp hne2
    have hstep := stepSim_quiet cfg pol lastTs allTs st r hp (hpol _ _ _ _)
      (hne2 r (by simp))
    have hne3 : ∀ r2 ∈ rs, r2.ts ≠
        ({ st with current_pressure := st.current_pressure - cfg.decline_rate } :
          SimState).end_visit_ts := fun r2 h2 => hne2 r2 (by simp [h2])
    obtain ⟨ih1, ih2, ih3, ih4⟩ :=
      ih { st with current_pressure := st.current_pressure - cfg.decline_rate } hp hne3
    refine ⟨?_, ?_, ?_, ?_⟩
    · simp only [runSim, hstep]
      rw [ih1]
      cases st
      simp
      ring
    · simp only [runSim, hstep, List.length_cons, ih2]
    · intro o ho
      simp only [runSim, hstep, List.mem_cons] at ho
      rcases ho with rfl | ho
      · rfl
      · exact ih3 o ho
    · intro k o h
      simp only [runSim, hstep] at h
      cases k with
      | zero =>
        simp only [List.get?_cons_zero, Option.some.injEq] at h
        rw [← h]
        norm_num
      | succ k =>
        simp only [List.get?_cons_succ] at h
        rw [ih4 k o h]
        congr 1
        push_cast
        ring

/-- C10: for a non-empty sorted series under a policy that never
triggers, the sentinel end-of-visit timestamp is initialised strictly
after every series timestamp, no reset ever fires, every record's visit
flag is false, `visit_count` is 0, and the k-th record's recorded
pressure is exactly `init_pressure - (k+1) * decline_rate`. -/
theorem never_trigger_baseline (cfg : Config) (pol : Policy) (recs : List Rec)
    (hne : recs ≠ [])
    (hday : 0 < cfg.one_day)
    (hpol : ∀ p t w pr, pol p t w pr = false)
    (hsort : List.Pairwise (fun a b : Rec => a.ts < b.ts) recs) :
    (∀ r ∈ recs,
      r.ts < (recs.map (fun r2 => r2.ts)).getLast?.getD 0 + cfg.one_day) ∧
    (∀ o ∈ (add_downtimes cfg pol 0 recs).2, o.visit = false) ∧
    (add_downtimes cfg pol 0 recs).1.n_visits = 0 ∧
    (add_downtimes cfg pol 0 recs).2.length = recs.length ∧
    ∀ (k : ℕ) (o : OutRec), (add_downtimes cfg pol 0 recs).2.get? k = some o →
      o.pressure = some (cfg.init_pressure - ((k : ℚ) + 1) * cfg.decline_rate) := by
  have hmap : List.Pairwise (fun a b : ℤ => a < b) (recs.map fun r => r.ts) := by
    rw [List.pairwise_map]
    exact hsort
  obtain ⟨m, hm⟩ : ∃ m, (recs.map fun r => r.ts).getLast? = some m := by
    cases hh : (recs.map fun r => r.ts).getLast? with
    | none =>
      rw [List.getLast?_eq_none_iff] at hh
      simp at hh
      exact absurd hh hne
    | some m => exact ⟨m, rfl⟩
  have hbound : ∀ r ∈ recs, r.ts ≤ m := fun r hr =>
    le_getLast_of_sorted _ m hmap hm r.ts (List.mem_map_of_mem _ hr)
  have hsent : ∀ r ∈ recs, r.ts < (recs.map (fun r2 => r2.ts)).getLast?.getD 0 + cfg.one_day := by
    intro r hr
    rw [hm]
    have := hbound r hr
    simp only [Option.getD_some]
    omega
  refine ⟨hsent, ?_⟩
  have hne4 : ∀ r ∈ recs, r.ts ≠
      ({ current_pressure := cfg.init_pressure,
         end_visit_ts := ((recs.map fun r => r.ts).getLast?.getD 0) + cfg.one_day,
         pending_visit := false, n_visits := 0 } : SimState).end_visit_ts := by
    intro r hr
    have := hsent r hr
    simp only []
    omega
  obtain ⟨h1, h2, h3, h4⟩ := runSim_quiet cfg pol ((recs.map fun r => r.ts).getLast?.getD 0)
    (recs.map fun r => r.ts) hpol recs
    { current_pressure := cfg.init_pressure,
      end_visit_ts := ((recs.map fun r => r.ts).getLast?.getD 0) + cfg.one_day,
      pending_visit := false, n_visits := 0 } rfl hne4
  refine ⟨h3, ?_, h2, h4⟩
  rw [show (add_downtimes cfg pol 0 recs).1 =
    (runSim cfg pol ((recs.map fun r => r.ts).getLast?.getD 0) (recs.map fun r => r.ts)
      { current_pressure := cfg.init_pressure,
        end_visit_ts := ((recs.map fun r => r.ts).getLast?.getD 0) + cfg.one_day,
        pending_visit := false, n_visits := 0 } recs).1 from rfl, h1]

theorem never_trigger_baseline_witness :
    (add_downtimes defaultConfig polNever 0 c1Series).1.n_visits = 0 :=
  (never_trigger_baseline defaultConfig polNever c1Series (by decide) (by decide)
    (fun _ _ _ _ => rfl) (by decide)).2.2.1

/-- C8: the code contradicts the claim that construction validates its
parameters — `ScheduledMaintenance.__init__(32, 13)` and
`ConditionMonitoring.__init__(0)` build strategy objects without any
error although the parameters are out of range per the spec, and the
decision predicates of the objects so built still evaluate normally. -/
theorem constructors_accept_invalid_config :
    ScheduledMaintenance.make 32 13 =
      { n_visits := 0, name := "Scheduled Maintenance", month := 13, day := 32 } ∧
    ¬ specValidCalendar 32 13 ∧
    ConditionMonitoring.make 0 =
      { n_visits := 0, name := "Condition Monitoring", pressure_threshold := 0 } ∧
    ¬ specValidThreshold 0 ∧
    (ScheduledMaintenance.make 32 13).fix_pressure 2 { month := 1, day := 1 } 0 0 = false ∧
    (ConditionMonitoring.make 0).fix_pressure (-1) { month := 1, day := 1 } 0 0 = true := by
  refine ⟨rfl, ?_, rfl, ?_, by decide, by decide⟩
  · unfold specValidCalendar
    decide
  · unfold specValidThreshold
    decide

/-- C9: the simulator is deterministic — two runs on an identical series
with an identical freshly constructed policy produce identical annotated
output and the same final visit count. -/
theorem simulator_deterministic (cfg1 cfg2 : Config) (pol1 pol2 : Policy)
    (recs1 recs2 : List Rec)
    (hcfg : cfg1 = cfg2) (hpol : pol1 = pol2) (hrecs : recs1 = recs2) :
    add_downtimes cfg1 pol1 0 recs1 = add_downtimes cfg2 pol2 0 recs2 ∧
    (add_downtimes cfg1 pol1 0 recs1).1.n_visits =
      (add_downtimes cfg2 pol2 0 recs2).1.n_visits := by
  subst hcfg
  subst hpol
  subst hrecs
  exact ⟨rfl, rfl⟩

theorem simulator_deterministic_witness :
    add_downtimes defaultConfig polNever 0 c1Series =
      add_downtimes defaultConfig polNever 0 c1Series ∧
    (add_downtimes defaultConfig polNever 0 c1Series).1.n_visits =
      (add_downtimes defaultConfig polNever 0 c1Series).1.n_visits :=
  simulator_deterministic defaultConfig defaultConfig polNever polNever
    c1Series c1Series rfl rfl rfl
